import Mathlib

/-!
Verification of the AEGIS treasury compliance engine.

This file is a shallow embedding, in Lean 4, of the pure computational core
of the `aegis` repository: the policy validator (`backend/app/validator.py`),
the price-map builder (`backend/app/safe_reader.py`), and the pure
snapshot-construction cores of the three chain readers
(`safe_reader.py`, `eth_reader.py`, `solana_reader.py`).

Modelling conventions:
- Python numbers (ints and floats) are embedded as exact rationals `ℚ`.
  Divisions, percentages and sums are therefore exact; Python float
  formatting (`:.1f`, `:,.0f`, `round`) is modelled with round-half-even
  on the exact rational.
- Python dicts of known shape become structures; `dict.get(k, d)` on a
  possibly-missing key becomes `Option` plus `getD`.
- Fallible Python code (library calls that raise `ValueError`/`TypeError`)
  is modelled with `Except PyError`; code that cannot raise is total.
- `datetime.now(timezone.utc)`, read inside `_check_inactivity_alert`, is
  modelled as an explicit parameter `now : ℚ` (seconds since the Unix epoch
  of the aware-UTC instant at which evaluation runs).
- `datetime.fromisoformat` (CPython >= 3.11) is modelled on the grammar the
  repository exercises: extended (`YYYY-MM-DD`) and basic (`YYYYMMDD`) dates,
  an optional single separator character, `HH[:MM[:SS[.frac]]]` (extended) or
  `HHMM[SS]` (basic) times, and an optional `±HH[:MM[:SS]]` / `±HHMM` offset,
  with field-range validation.  All-digit strings of length other than 8
  (such as Etherscan Unix timestamps) are rejected, as in CPython.
-/

namespace Aegis

attribute [local semireducible] Rat.mul Rat.add Rat.sub Rat.inv

/-- Python exceptions that the embedded code can raise. -/
inductive PyError where
  | valueError (msg : String)
  | typeError (msg : String)
deriving DecidableEq, Repr

/-- Lookup with default in a string-keyed parameter mapping: `params.get(k, d)`. -/
def lookupD (params : List (String × ℚ)) (k : String) (d : ℚ) : ℚ :=
  match params.find? (fun p => p.1 = k) with
  | some p => p.2
  | none => d

/-- Python truthiness of an optional string (`None` and `""` are falsy). -/
def truthyStr (s : Option String) : Bool :=
  match s with
  | none => false
  | some s => s ≠ ""

/-- Python truthiness of an optional integer (`None` and `0` are falsy). -/
def truthyInt (v : Option Int) : Bool :=
  match v with
  | none => false
  | some v => v ≠ 0

/-- Python `str.lower()` (ASCII case folding; contract addresses are ASCII hex). -/
def lowerStr (s : String) : String :=
  String.mk (s.data.map Char.toLower)

/-- Rational powers by structural recursion (kernel-reducible `q ^ n`). -/
def qpow (q : ℚ) : Nat → ℚ
  | 0 => 1
  | n + 1 => qpow q n * q

/-- Python `10 ** d` for an integer `d` (exact rational). -/
def pow10 (d : Int) : ℚ :=
  if 0 ≤ d then qpow 10 d.toNat else 1 / qpow 10 (-d).toNat

/-- Floor of a rational as an integer. -/
def ratFloor (q : ℚ) : Int := q.num.fdiv q.den

/-- Round-half-even on an exact rational: the rounding CPython applies in
`round(x)` and in `format(x, ".Nf")`. -/
def pyRound (q : ℚ) : Int :=
  let f := ratFloor q
  let r := q - (f : ℚ)
  if r < 1/2 then f
  else if 1/2 < r then f + 1
  else if f % 2 = 0 then f else f + 1

/-- Decimal digits of a natural number, via `toString`. -/
def natDigits (n : Nat) : String := toString n

/-- Insert thousands separators into a digit string, as Python `:{,}` grouping. -/
def commaGroup (s : String) : String :=
  let step : (List Char × Nat) → Char → (List Char × Nat) := fun st c =>
    if st.2 % 3 = 0 ∧ st.2 ≠ 0 then (c :: ',' :: st.1, st.2 + 1) else (c :: st.1, st.2 + 1)
  String.mk (s.data.reverse.foldl step ([], 0)).1

/-- Zero-pad a string on the left to width `w`. -/
def padZeros (s : String) (w : Nat) : String :=
  String.mk (List.replicate (w - s.length) '0') ++ s

/-- Python `f"{q:.df}"`: fixed-point formatting with `d` decimals, half-even. -/
def fmtFixed (q : ℚ) (d : Nat) : String :=
  let n := pyRound (q * qpow 10 d)
  let sign := if n < 0 then "-" else ""
  let m := n.natAbs
  if d = 0 then sign ++ natDigits m
  else sign ++ natDigits (m / 10 ^ d) ++ "." ++ padZeros (natDigits (m % 10 ^ d)) d

/-- Python `f"{q:,.0f}"`: zero decimals with thousands separators. -/
def fmtComma0 (q : ℚ) : String :=
  let n := pyRound q
  (if n < 0 then "-" else "") ++ commaGroup (natDigits n.natAbs)

/-- Python `f"${q:,.0f}"`. -/
def usdFmt (q : ℚ) : String := "$" ++ fmtComma0 q

/-- Python `f"{q}"` on a rule parameter. Modelled exactly for integral values
(the JSON policy parameters in use); a non-integral rational is rendered as
`num/den`. -/
def pyNumStr (q : ℚ) : String :=
  if q.den = 1 then toString q.num else toString q.num ++ "/" ++ toString q.den

/-- Python `f"{x}"` on an optional string (`None` renders as `"None"`). -/
def pyOptStr (s : Option String) : String := s.getD "None"

/-! ### A model of `datetime` as used by `_check_inactivity_alert` -/

/-- An aware or naive `datetime.datetime`: calendar fields plus an optional
UTC offset in seconds (`none` = naive). -/
structure PyDateTime where
  year : Nat
  month : Nat
  day : Nat
  hour : Nat
  minute : Nat
  second : Nat
  microsecond : Nat
  tzOffsetSeconds : Option Int
deriving DecidableEq, Repr

/-- Leap-year test of the proleptic Gregorian calendar. -/
def isLeap (y : Nat) : Bool := y % 4 = 0 ∧ (y % 100 ≠ 0 ∨ y % 400 = 0)

/-- Days in a month of the proleptic Gregorian calendar. -/
def daysInMonth (y : Nat) (m : Nat) : Nat :=
  if m = 2 then (if isLeap y then 29 else 28)
  else if m = 4 ∨ m = 6 ∨ m = 9 ∨ m = 11 then 30 else 31

/-- Days from 1970-01-01 to the given civil date (Hinnant's algorithm). -/
def daysFromCivil (y : Nat) (m : Nat) (d : Nat) : Int :=
  let y' : Int := if m ≤ 2 then (y : Int) - 1 else (y : Int)
  let era : Int := (if 0 ≤ y' then y' else y' - 399).fdiv 400
  let yoe : Int := y' - era * 400
  let mp : Int := if 2 < m then (m : Int) - 3 else (m : Int) + 9
  let doy : Int := (153 * mp + 2).fdiv 5 + (d : Int) - 1
  let doe : Int := yoe * 365 + yoe.fdiv 4 - yoe.fdiv 100 + doy
  era * 146097 + doe - 719468

/-- Seconds since the Unix epoch of a datetime's fields, shifted by its UTC
offset when aware (naive datetimes are keyed with offset `0`; Python only
compares naive with naive, where this matches field order). -/
def epochQ (dt : PyDateTime) : ℚ :=
  (daysFromCivil dt.year dt.month dt.day * 86400 : Int)
    + (dt.hour * 3600 + dt.minute * 60 + dt.second : Nat)
    + (dt.microsecond : ℚ) / 1000000
    - (dt.tzOffsetSeconds.getD 0 : Int)

/-- Python `a > b` on datetimes: mixing naive and aware raises `TypeError`. -/
def pyDtGT (a b : PyDateTime) : Except PyError Bool :=
  if a.tzOffsetSeconds.isSome ≠ b.tzOffsetSeconds.isSome then
    .error (.typeError "can't compare offset-naive and offset-aware datetimes")
  else
    .ok (decide (epochQ b < epochQ a))

/-- Digit value of a decimal digit character. -/
def digVal (c : Char) : Nat := c.toNat - 48

/-- Read exactly `k` decimal digits, returning their value and the rest. -/
def readDigits (acc : Nat) : Nat → List Char → Option (Nat × List Char)
  | 0, cs => some (acc, cs)
  | _ + 1, [] => none
  | k + 1, c :: cs => if c.isDigit then readDigits (acc * 10 + digVal c) k cs else none

/-- Read a maximal run of decimal digits. -/
def readDigitRun (acc : Nat) (len : Nat) : List Char → (Nat × Nat × List Char)
  | [] => (acc, len, [])
  | c :: cs =>
    if c.isDigit then readDigitRun (acc * 10 + digVal c) (len + 1) cs
    else (acc, len, c :: cs)

/-- Parse the date part of an ISO-8601 string: `YYYY-MM-DD` or `YYYYMMDD`,
validating field ranges.  Returns the fields and the unconsumed suffix. -/
def parseDatePart (cs : List Char) : Option (Nat × Nat × Nat × List Char) :=
  match readDigits 0 4 cs with
  | none => none
  | some (y, rest) =>
    let readMD : List Char → Option (Nat × Nat × List Char) := fun r =>
      match r with
      | '-' :: r1 =>
        match readDigits 0 2 r1 with
        | none => none
        | some (m, r2) =>
          match r2 with
          | '-' :: r3 =>
            match readDigits 0 2 r3 with
            | none => none
            | some (d, r4) => some (m, d, r4)
          | _ => none
      | _ =>
        match readDigits 0 2 r with
        | none => none
        | some (m, r2) =>
          match readDigits 0 2 r2 with
          | none => none
          | some (d, r3) => some (m, d, r3)
    match readMD rest with
    | none => none
    | some (m, d, r) =>
      if 1 ≤ y ∧ 1 ≤ m ∧ m ≤ 12 ∧ 1 ≤ d ∧ d ≤ daysInMonth y m then some (y, m, d, r)
      else none

/-- Parse `[:MM[:SS[.frac]]]`-style minute/second/fraction continuations of a
time, in extended (colon-separated) form. -/
def parseMinSecExt (cs : List Char) : Option (Nat × Nat × Nat × List Char) :=
  match cs with
  | ':' :: r =>
    match readDigits 0 2 r with
    | none => none
    | some (mi, r2) =>
      match r2 with
      | ':' :: r3 =>
        match readDigits 0 2 r3 with
        | none => none
        | some (s, r4) =>
          match r4 with
          | '.' :: r5 | ',' :: r5 =>
            let (v, len, r6) := readDigitRun 0 0 r5
            if len = 0 then none
            else
              let us := if len ≤ 6 then v * 10 ^ (6 - len) else v / 10 ^ (len - 6)
              some (mi, s, us, r6)
          | _ => some (mi, s, 0, r4)
      | _ => some (mi, 0, 0, r2)
  | _ => some (0, 0, 0, cs)

/-- Parse minute/second continuations of a time in basic (unseparated) form. -/
def parseMinSecBasic (cs : List Char) : Option (Nat × Nat × Nat × List Char) :=
  match readDigits 0 2 cs with
  | none => none
  | some (mi, r2) =>
    match readDigits 0 2 r2 with
    | none => some (mi, 0, 0, r2)
    | some (s, r3) =>
      match r3 with
      | '.' :: r4 | ',' :: r4 =>
        let (v, len, r5) := readDigitRun 0 0 r4
        if len = 0 then none
        else
          let us := if len ≤ 6 then v * 10 ^ (6 - len) else v / 10 ^ (len - 6)
          some (mi, s, us, r5)
      | _ => some (mi, s, 0, r3)

/-- Parse a UTC offset `±HH[:MM[:SS]]` or `±HHMM`, consuming the whole rest. -/
def parseOffset (cs : List Char) : Option (Option Int) :=
  match cs with
  | [] => some none
  | sgn :: r =>
    if sgn = '+' ∨ sgn = '-' then
      match readDigits 0 2 r with
      | none => none
      | some (oh, r2) =>
        let fin : Nat → Nat → Nat → Option (Option Int) := fun h mi s =>
          if h * 3600 + mi * 60 + s < 86400 ∧ mi ≤ 59 ∧ s ≤ 59 then
            let total : Int := (h * 3600 + mi * 60 + s : Nat)
            some (some (if sgn = '-' then -total else total))
          else none
        match r2 with
        | [] => fin oh 0 0
        | ':' :: r3 =>
          match readDigits 0 2 r3 with
          | none => none
          | some (om, r4) =>
            match r4 with
            | [] => fin oh om 0
            | ':' :: r5 =>
              match readDigits 0 2 r5 with
              | some (os, []) => fin oh om os
              | _ => none
            | _ => none
        | _ =>
          match readDigits 0 2 r2 with
          | some (om, []) => fin oh om 0
          | _ => none
    else none

/-- Parse the time-and-offset part following the separator character. -/
def parseTimePart (y m d : Nat) (cs : List Char) : Option PyDateTime :=
  match readDigits 0 2 cs with
  | none => none
  | some (h, r) =>
    let msf : Option (Nat × Nat × Nat × List Char) :=
      match r with
      | ':' :: _ => parseMinSecExt r
      | c :: _ => if c.isDigit then parseMinSecBasic r else some (0, 0, 0, r)
      | [] => some (0, 0, 0, [])
    match msf with
    | none => none
    | some (mi, s, us, r2) =>
      if h ≤ 23 ∧ mi ≤ 59 ∧ s ≤ 59 then
        match parseOffset r2 with
        | none => none
        | some off => some ⟨y, m, d, h, mi, s, us, off⟩
      else none

/-- Model of CPython (>= 3.11) `datetime.fromisoformat` on the grammar
described in the file header; `none` models a raised `ValueError`. -/
def pyFromisoformat (s : String) : Option PyDateTime :=
  match parseDatePart s.data with
  | none => none
  | some (y, m, d, []) => some ⟨y, m, d, 0, 0, 0, 0, none⟩
  | some (y, m, d, _sep :: rest) => parseTimePart y m d rest

/-- Python `s.replace("Z", "+00:00")`. -/
def replaceZ (s : String) : String :=
  String.mk (s.data.foldr
    (fun c acc => if c = 'Z' then '+' :: '0' :: '0' :: ':' :: '0' :: '0' :: acc else c :: acc)
    [])

/-- Python `dt.strftime("%Y-%m-%d %H:%M UTC")`. -/
def strftimeYmdHM (dt : PyDateTime) : String :=
  padZeros (natDigits dt.year) 4 ++ "-" ++ padZeros (natDigits dt.month) 2 ++ "-"
    ++ padZeros (natDigits dt.day) 2 ++ " " ++ padZeros (natDigits dt.hour) 2 ++ ":"
    ++ padZeros (natDigits dt.minute) 2 ++ " UTC"

/-! ### Data model

The dict shapes flowing between the readers and the validator, as structures.
-/

/-- One token-holding entry of a balances snapshot (the dicts built by
`fetch_safe_balances`, `fetch_eoa_balances` and `fetch_solana_balances`). -/
structure Token where
  symbol : String
  balance : ℚ
  usd_value : ℚ
  is_stablecoin : Bool
  address : Option String
  decimals : Int
deriving DecidableEq, Repr

/-- The balances snapshot dict (`address`, `total_usd`, `eth_price`, `tokens`). -/
structure Balances where
  address : String
  total_usd : ℚ
  eth_price : ℚ
  tokens : List Token
deriving DecidableEq, Repr

/-- A transaction record in the shape the three readers produce and
`validate_policy` consumes. -/
structure Tx where
  execution_date : Option String
  value_wei : Int
  value_eth : ℚ
  txTo : Option String
  method : Option String
  token_address : Option String
  token_value_raw : Option Int
  is_executed : Bool
  tx_hash : String
deriving DecidableEq, Repr

/-- A policy rule: `{"type": ..., "params": {...}, "severity": ...}`.
A missing `severity` key is `none` (the code defaults it to `"warning"`);
a missing `params` key behaves as the empty mapping. -/
structure Rule where
  type : String
  params : List (String × ℚ)
  severity : Option String
deriving DecidableEq, Repr

/-- One rule-evaluation result dict.  The metadata fields (`name`,
`description`, `rationale`) are empty until `_enrich_result` fills them. -/
structure RuleResult where
  rule : String
  passed : Bool
  current_value : String
  threshold : String
  severity : String
  detail : String
  name : String := ""
  description : String := ""
  rationale : String := ""
deriving DecidableEq, Repr

/-- A remediation recommendation `{rule, action, severity}`. -/
structure Recommendation where
  rule : String
  action : String
  severity : String
deriving DecidableEq, Repr

/-- The compliance report returned by `validate_policy`. -/
structure Report where
  safe_address : String
  total_usd : ℚ
  overall_status : String
  passed : Nat
  failed : Nat
  total_rules : Nat
  results : List RuleResult
  recommendations : List Recommendation
deriving DecidableEq, Repr

/-! ### Static tables -/

/-- `RULE_METADATA`: per-rule-type `(name, description, rationale)`. -/
def RULE_METADATA (rule : String) : Option (String × String × String) :=
  if rule = "allocation_cap" then some ("Single-Token Concentration Cap",
    "No single token should exceed a set percentage of total portfolio value.",
    "Most treasury frameworks cap single-token allocation at 25-35% to prevent catastrophic loss from a single asset crash.")
  else if rule = "stablecoin_floor" then some ("Stablecoin Minimum Floor",
    "Stablecoins must represent at least a minimum percentage of the portfolio.",
    "Maintaining 15-25% in stablecoins ensures 3-6 months of operating runway without forced liquidation during market downturns.")
  else if rule = "single_asset_cap" then some ("Absolute Asset Value Cap",
    "No single asset should exceed an absolute USD value threshold.",
    "Absolute caps prevent over-exposure even when percentage-based rules pass. Limits maximum loss from a single token collapse.")
  else if rule = "max_tx_size" then some ("Transaction Size Limit",
    "No single transaction should exceed a USD value threshold.",
    "Spending guardrails prevent unauthorized or accidental large transfers. Most treasuries set this at 5-15% of total holdings.")
  else if rule = "inactivity_alert" then some ("Activity Monitor",
    "The treasury must show transaction activity within a time window.",
    "Inactive treasuries may indicate lost keys, abandoned governance, or compromised signers. 7 days balances operational cadence with security.")
  else if rule = "min_diversification" then some ("Minimum Diversification",
    "The portfolio must hold at least a minimum number of distinct tokens.",
    "EU MiCA and MAS Singapore guidelines require diversified holdings to reduce systemic risk. Standard financial practice across all jurisdictions.")
  else if rule = "volatile_exposure" then some ("Volatile Asset Exposure Cap",
    "Non-stablecoin (volatile) assets cannot exceed a maximum percentage of the portfolio.",
    "Limits exposure to market volatility. Aligned with EU AIFMD reserve frameworks and prudential requirements across European and Asian regulators.")
  else if rule = "min_treasury_value" then some ("Minimum Treasury Threshold",
    "Total portfolio value must remain above a minimum USD floor.",
    "Ensures operational solvency. Basel III-inspired capital adequacy principles adopted by regulators including Japan FSA and Finansinspektionen (Sweden).")
  else if rule = "large_tx_ratio" then some ("Relative Transaction Cap",
    "No single transaction should exceed a percentage of total portfolio value.",
    "AML/CFT compliance requires monitoring transactions relative to portfolio size. Required by FinCEN (US), FCA (UK), and FATF member regulators globally.")
  else if rule = "concentration_hhi" then some ("Portfolio Concentration Index",
    "The Herfindahl-Hirschman Index (HHI) of portfolio allocation must stay below a threshold.",
    "HHI is the standard financial metric for measuring market/portfolio concentration. Used by SEC, European Commission, and BaFin for competitive and risk analysis.")
  else none

/-- `RULE_RECOMMENDATIONS`: per-rule-type remediation action text. -/
def RULE_RECOMMENDATIONS (rule : String) : Option String :=
  if rule = "allocation_cap" then some "Rebalance by swapping a portion of the over-concentrated token into stablecoins or diversified assets."
  else if rule = "stablecoin_floor" then some "Increase stablecoin holdings by converting a portion of volatile assets. Target USDC or DAI for maximum liquidity."
  else if rule = "single_asset_cap" then some "Reduce position size in the over-cap asset. Consider dollar-cost averaging out over multiple transactions."
  else if rule = "max_tx_size" then some "Break large transfers into smaller batches. Consider implementing a multi-sig spending limit policy."
  else if rule = "inactivity_alert" then some "Verify signer access and confirm the treasury is actively governed. Schedule regular rebalancing transactions."
  else if rule = "min_diversification" then some "Add new token positions to diversify the portfolio. Consider allocating to uncorrelated assets across DeFi, stablecoins, and L1 tokens."
  else if rule = "volatile_exposure" then some "Reduce volatile asset exposure by converting a portion into stablecoins. This improves resilience during market downturns."
  else if rule = "min_treasury_value" then some "Treasury value has fallen below the minimum threshold. Consider fundraising, reducing burn rate, or reallocating to higher-yield stablecoins."
  else if rule = "large_tx_ratio" then some "Recent transactions are disproportionately large relative to total holdings. Consider imposing tighter per-transaction limits or requiring multi-sig for large transfers."
  else if rule = "concentration_hhi" then some "Portfolio concentration is too high. Distribute holdings more evenly across multiple tokens to reduce the HHI score below the threshold."
  else none

/-- The fixed Ethereum-mainnet stablecoin contract allowlist of
`safe_reader.STABLECOINS` (lowercase addresses). -/
def STABLECOINS : List String :=
  [ "0xa0b86991c6218b36c1d19d4a2e9eb0ce3606eb48"
  , "0xdac17f958d2ee523a2206206994597c13d831ec7"
  , "0x6b175474e89094c44da98b954eedeac495271d0f"
  , "0x853d955acef822db058eb8505911ed77f175b99e"
  , "0x5f98805a4e8be255a32880fdec7f6728c6568ba0"
  , "0x4fabb145d64652a948d72533023f6e7a623c7c53"
  , "0x8e870d67f660d95d5be530380d0ec0bd388289e1"
  , "0x056fd409e1d7a124bd7017459dfea2f387b6d5cd"
  , "0x57ab1ec28d129707052df4df418d58a2d46d5f51"
  , "0x99d8a9c45b2eca8864373a26d1459e3dff1e17f3" ]

/-! ### Price map and transaction USD estimation -/

/-- Insert-or-replace into a dict modelled as an association list (Python dict
assignment `d[k] = v`). -/
def dictInsert (d : List (Option String × ℚ)) (k : Option String) (v : ℚ) :
    List (Option String × ℚ) :=
  if d.any (fun p => p.1 = k) then d.map (fun p => if p.1 = k then (k, v) else p)
  else d ++ [(k, v)]

/-- Dict lookup with default `0`: `prices.get(key, 0)`. -/
def priceGet (d : List (Option String × ℚ)) (k : Option String) : ℚ :=
  match d.find? (fun p => p.1 = k) with
  | some p => p.2
  | none => 0

/-- `safe_reader.build_price_map`: a `{address_lower_or_none: usd_per_unit}`
map from a balances snapshot, for holdings with positive balance. -/
def build_price_map (balances : Balances) : List (Option String × ℚ) :=
  balances.tokens.foldl
    (fun prices token =>
      let key : Option String :=
        match token.address with
        | some a => if a = "" then none else some (lowerStr a)
        | none => none
      if 0 < token.balance then dictInsert prices key (token.usd_value / token.balance)
      else prices)
    []

/-- The `decimals` resolution loop of `_estimate_tx_usd`: the first holding
whose (truthy) address matches `token_addr` case-insensitively, default 18. -/
def findDecimals (tokens : List Token) (token_addr : String) : Int :=
  match tokens.find? (fun t => truthyStr t.address ∧ lowerStr (t.address.getD "") = token_addr) with
  | some t => t.decimals
  | none => 18

/-- `_estimate_tx_usd`: USD value of a transaction from current prices. -/
def _estimate_tx_usd (tx : Tx) (balances : Balances) (prices : List (Option String × ℚ)) : ℚ :=
  if 0 < tx.value_wei then
    tx.value_eth * priceGet prices none
  else if truthyStr tx.token_address ∧ truthyInt tx.token_value_raw then
    let token_addr := lowerStr (tx.token_address.getD "")
    let decimals := findDecimals balances.tokens token_addr
    let human_amount : ℚ := (tx.token_value_raw.getD 0 : Int) / pow10 decimals
    human_amount * priceGet prices (some token_addr)
  else 0

/-! ### The ten rule evaluators -/

/-- `_check_allocation_cap`: one failing result per token above `max_percent`
of the total, else one synthetic passing result; empty portfolio passes. -/
def _check_allocation_cap (balances : Balances) (params : List (String × ℚ))
    (severity : String) : List RuleResult :=
  let max_pct := lookupD params "max_percent" 30
  let total := balances.total_usd
  if total = 0 then
    [{ rule := "allocation_cap", passed := true, current_value := "0%",
       threshold := pyNumStr max_pct ++ "%", severity := severity,
       detail := "Portfolio is empty" }]
  else
    let results := balances.tokens.foldl
      (fun results token =>
        let pct := token.usd_value / total * 100
        if max_pct < pct then
          results ++ [{ rule := "allocation_cap", passed := false,
                        current_value := fmtFixed pct 1 ++ "%",
                        threshold := pyNumStr max_pct ++ "%", severity := severity,
                        detail := token.symbol ++ " is " ++ fmtFixed pct 1
                          ++ "% of portfolio (" ++ usdFmt token.usd_value
                          ++ ") — exceeds " ++ pyNumStr max_pct ++ "% cap" }]
        else results)
      []
    if results.isEmpty then
      [{ rule := "allocation_cap", passed := true, current_value := "all within cap",
         threshold := pyNumStr max_pct ++ "%", severity := severity,
         detail := "No single token exceeds allocation cap" }]
    else results

/-- `_check_stablecoin_floor`: stablecoin share must be at least `min_percent`. -/
def _check_stablecoin_floor (balances : Balances) (params : List (String × ℚ))
    (severity : String) : RuleResult :=
  let min_pct := lookupD params "min_percent" 20
  let total := balances.total_usd
  if total = 0 then
    { rule := "stablecoin_floor", passed := true, current_value := "0%",
      threshold := pyNumStr min_pct ++ "%", severity := severity,
      detail := "Portfolio is empty" }
  else
    let stable_usd := ((balances.tokens.filter (fun t => t.is_stablecoin)).map
      (fun t => t.usd_value)).sum
    let stable_pct := stable_usd / total * 100
    { rule := "stablecoin_floor", passed := decide (min_pct ≤ stable_pct),
      current_value := fmtFixed stable_pct 1 ++ "%",
      threshold := pyNumStr min_pct ++ "%", severity := severity,
      detail := "Stablecoins: " ++ usdFmt stable_usd ++ " (" ++ fmtFixed stable_pct 1
        ++ "% of portfolio)"
        ++ (if min_pct ≤ stable_pct then "" else " — below " ++ pyNumStr min_pct ++ "% floor") }

/-- `_check_single_asset_cap`: no single asset above `max_usd` absolute value. -/
def _check_single_asset_cap (balances : Balances) (params : List (String × ℚ))
    (severity : String) : RuleResult :=
  let max_usd := lookupD params "max_usd" 500000
  let breaches := balances.tokens.filter (fun t => max_usd < t.usd_value)
  if ¬ breaches.isEmpty then
    let detail := String.intercalate ", "
      (breaches.map (fun t => t.symbol ++ ": " ++ usdFmt t.usd_value))
    { rule := "single_asset_cap", passed := false,
      current_value := toString breaches.length ++ " asset(s) over cap",
      threshold := usdFmt max_usd, severity := severity,
      detail := "Over cap: " ++ detail }
  else
    { rule := "single_asset_cap", passed := true, current_value := "all within cap",
      threshold := usdFmt max_usd, severity := severity,
      detail := "No single asset exceeds absolute USD cap" }

/-- A breach record built inside `_check_max_tx_size`. -/
structure TxBreach where
  tx_hash : String
  estimated_usd : ℚ
  date : Option String
deriving DecidableEq, Repr

/-- Python `max(xs, key=f)` over a non-empty list: the first element with the
strictly largest key. -/
def maxByKey (key : TxBreach → ℚ) (best : TxBreach) : List TxBreach → TxBreach
  | [] => best
  | x :: xs => maxByKey key (if key best < key x then x else best) xs

/-- `_check_max_tx_size`: no transaction above `max_usd`; `None` transactions
skip with a pass, an empty list passes. -/
def _check_max_tx_size (transactions : Option (List Tx)) (balances : Balances)
    (params : List (String × ℚ)) (severity : String) : RuleResult :=
  let max_usd := lookupD params "max_usd" 100000
  match transactions with
  | none =>
    { rule := "max_tx_size", passed := true, current_value := "N/A",
      threshold := usdFmt max_usd, severity := severity,
      detail := "No transaction data available — skipped" }
  | some txs =>
    if txs.isEmpty then
      { rule := "max_tx_size", passed := true, current_value := "no recent transactions",
        threshold := usdFmt max_usd, severity := severity,
        detail := "No executed transactions found" }
    else
      let prices := build_price_map balances
      let breaches := txs.foldl
        (fun breaches tx =>
          let estimated_usd := _estimate_tx_usd tx balances prices
          if max_usd < estimated_usd then
            breaches ++ [TxBreach.mk tx.tx_hash estimated_usd tx.execution_date]
          else breaches)
        []
      match breaches with
      | [] =>
        { rule := "max_tx_size", passed := true,
          current_value := toString txs.length ++ " recent txs checked",
          threshold := usdFmt max_usd, severity := severity,
          detail := "All " ++ toString txs.length ++ " recent transactions within "
            ++ usdFmt max_usd ++ " cap" }
      | b :: bs =>
        let worst := maxByKey (fun b => b.estimated_usd) b bs
        { rule := "max_tx_size", passed := false,
          current_value := usdFmt worst.estimated_usd,
          threshold := usdFmt max_usd, severity := severity,
          detail := toString (b :: bs).length ++ " transaction(s) exceed " ++ usdFmt max_usd
            ++ " cap. Largest: " ++ usdFmt worst.estimated_usd ++ " on " ++ pyOptStr worst.date }

/-- The latest-execution-date loop of `_check_inactivity_alert`: a left fold
that parses each truthy `execution_date` (raising `ValueError` on a string
`fromisoformat` rejects, and `TypeError` when comparing a naive with an
aware datetime). -/
def foldLatest (acc : Option PyDateTime) : List Tx → Except PyError (Option PyDateTime)
  | [] => .ok acc
  | tx :: txs =>
    match tx.execution_date with
    | none => foldLatest acc txs
    | some date_str =>
      if date_str = "" then foldLatest acc txs
      else
        match pyFromisoformat (replaceZ date_str) with
        | none => .error (.valueError ("Invalid isoformat string: '" ++ replaceZ date_str ++ "'"))
        | some dt =>
          match acc with
          | none => foldLatest (some dt) txs
          | some latest =>
            match pyDtGT dt latest with
            | .error e => .error e
            | .ok gt => foldLatest (if gt then some dt else acc) txs

/-- `_check_inactivity_alert`: the treasury must show activity within
`threshold_hours` of `now`; `None` transactions skip with a pass, an empty
list fails, undatable transactions fail. -/
def _check_inactivity_alert (transactions : Option (List Tx))
    (params : List (String × ℚ)) (severity : String) (now : ℚ) :
    Except PyError RuleResult :=
  let threshold_hours := lookupD params "threshold_hours" 168
  match transactions with
  | none =>
    .ok { rule := "inactivity_alert", passed := true, current_value := "N/A",
          threshold := pyNumStr threshold_hours ++ "h", severity := severity,
          detail := "No transaction data available — skipped" }
  | some txs =>
    if txs.isEmpty then
      .ok { rule := "inactivity_alert", passed := false,
            current_value := "no transactions found",
            threshold := pyNumStr threshold_hours ++ "h", severity := severity,
            detail := "No executed transactions found — Safe may be inactive or new" }
    else
      match foldLatest none txs with
      | .error e => .error e
      | .ok none =>
        .ok { rule := "inactivity_alert", passed := false, current_value := "unknown",
              threshold := pyNumStr threshold_hours ++ "h", severity := severity,
              detail := "Could not determine last transaction date" }
      | .ok (some latest) =>
        match latest.tzOffsetSeconds with
        | none => .error (.typeError "can't subtract offset-naive and offset-aware datetimes")
        | some _ =>
          let hours_since := (now - epochQ latest) / 3600
          .ok { rule := "inactivity_alert",
                passed := decide (hours_since ≤ threshold_hours),
                current_value := fmtFixed hours_since 0 ++ "h ago",
                threshold := pyNumStr threshold_hours ++ "h", severity := severity,
                detail := "Last transaction: " ++ strftimeYmdHM latest ++ " ("
                  ++ fmtFixed hours_since 0 ++ "h ago)"
                  ++ (if hours_since ≤ threshold_hours then ""
                      else " — exceeds " ++ pyNumStr threshold_hours ++ "h threshold") }

/-- `_check_min_diversification`: at least `min_tokens` tokens with meaningful
balance (`usd_value > 100 or balance > 0.01`). -/
def _check_min_diversification (balances : Balances) (params : List (String × ℚ))
    (severity : String) : RuleResult :=
  let min_tokens := lookupD params "min_tokens" 3
  let meaningful := balances.tokens.filter
    (fun t => 100 < t.usd_value ∨ (1 : ℚ)/100 < t.balance)
  let count := meaningful.length
  { rule := "min_diversification", passed := decide (min_tokens ≤ (count : ℚ)),
    current_value := toString count ++ " tokens",
    threshold := pyNumStr min_tokens ++ " min", severity := severity,
    detail := "Portfolio holds " ++ toString count ++ " distinct token(s)"
      ++ (if min_tokens ≤ (count : ℚ) then ""
          else " — below " ++ pyNumStr min_tokens ++ " minimum for diversification") }

/-- `_check_volatile_exposure`: non-stablecoin share at most `max_percent`. -/
def _check_volatile_exposure (balances : Balances) (params : List (String × ℚ))
    (severity : String) : RuleResult :=
  let max_pct := lookupD params "max_percent" 80
  let total := balances.total_usd
  if total = 0 then
    { rule := "volatile_exposure", passed := true, current_value := "0%",
      threshold := pyNumStr max_pct ++ "%", severity := severity,
      detail := "Portfolio is empty" }
  else
    let stable_usd := ((balances.tokens.filter (fun t => t.is_stablecoin)).map
      (fun t => t.usd_value)).sum
    let volatile_usd := total - stable_usd
    let volatile_pct := volatile_usd / total * 100
    { rule := "volatile_exposure", passed := decide (volatile_pct ≤ max_pct),
      current_value := fmtFixed volatile_pct 1 ++ "%",
      threshold := pyNumStr max_pct ++ "%", severity := severity,
      detail := "Volatile assets: " ++ usdFmt volatile_usd ++ " (" ++ fmtFixed volatile_pct 1
        ++ "% of portfolio)"
        ++ (if volatile_pct ≤ max_pct then "" else " — exceeds " ++ pyNumStr max_pct ++ "% cap") }

/-- `_check_min_treasury_value`: total value at least `min_usd`. -/
def _check_min_treasury_value (balances : Balances) (params : List (String × ℚ))
    (severity : String) : RuleResult :=
  let min_usd := lookupD params "min_usd" 100000
  let total := balances.total_usd
  { rule := "min_treasury_value", passed := decide (min_usd ≤ total),
    current_value := usdFmt total,
    threshold := usdFmt min_usd, severity := severity,
    detail := "Total portfolio value: " ++ usdFmt total
      ++ (if min_usd ≤ total then "" else " — below " ++ usdFmt min_usd ++ " minimum threshold") }

/-- A breach record built inside `_check_large_tx_ratio`. -/
structure RatioBreach where
  pct : ℚ
  usd : ℚ
deriving DecidableEq, Repr

/-- Python `max(xs, key=lambda b: b["pct"])` over a non-empty list. -/
def maxByPct (best : RatioBreach) : List RatioBreach → RatioBreach
  | [] => best
  | x :: xs => maxByPct (if best.pct < x.pct then x else best) xs

/-- `_check_large_tx_ratio`: no transaction above `max_percent` of the total;
`None` transactions or a zero total skip with a pass, an empty list passes. -/
def _check_large_tx_ratio (transactions : Option (List Tx)) (balances : Balances)
    (params : List (String × ℚ)) (severity : String) : RuleResult :=
  let max_pct := lookupD params "max_percent" 15
  let total := balances.total_usd
  match transactions with
  | none =>
    { rule := "large_tx_ratio", passed := true, current_value := "N/A",
      threshold := pyNumStr max_pct ++ "%", severity := severity,
      detail := "No transaction data available — skipped" }
  | some txs =>
    if total = 0 then
      { rule := "large_tx_ratio", passed := true, current_value := "N/A",
        threshold := pyNumStr max_pct ++ "%", severity := severity,
        detail := "No transaction data available — skipped" }
    else if txs.isEmpty then
      { rule := "large_tx_ratio", passed := true, current_value := "no recent txs",
        threshold := pyNumStr max_pct ++ "%", severity := severity,
        detail := "No executed transactions found" }
    else
      let prices := build_price_map balances
      let _max_usd := total * (max_pct / 100)
      let breaches := txs.foldl
        (fun breaches tx =>
          let estimated := _estimate_tx_usd tx balances prices
          let pct := if 0 < total then estimated / total * 100 else 0
          if max_pct < pct then breaches ++ [RatioBreach.mk pct estimated] else breaches)
        []
      match breaches with
      | [] =>
        { rule := "large_tx_ratio", passed := true,
          current_value := toString txs.length ++ " txs checked",
          threshold := pyNumStr max_pct ++ "%", severity := severity,
          detail := "All " ++ toString txs.length ++ " recent transactions within "
            ++ pyNumStr max_pct ++ "% of portfolio" }
      | b :: bs =>
        let worst := maxByPct b bs
        { rule := "large_tx_ratio", passed := false,
          current_value := fmtFixed worst.pct 1 ++ "%",
          threshold := pyNumStr max_pct ++ "%", severity := severity,
          detail := toString (b :: bs).length ++ " transaction(s) exceed " ++ pyNumStr max_pct
            ++ "% of portfolio. Largest: " ++ fmtFixed worst.pct 1 ++ "% ("
            ++ usdFmt worst.usd ++ ")" }

/-- `_check_concentration_hhi`: the Herfindahl-Hirschman index of the
portfolio (sum of squared percentage shares, rounded) must stay at or below
`max_hhi`; labels: `< 1500` diversified, `< 2500` moderate, else concentrated. -/
def _check_concentration_hhi (balances : Balances) (params : List (String × ℚ))
    (severity : String) : RuleResult :=
  let max_hhi := lookupD params "max_hhi" 3000
  let total := balances.total_usd
  if total = 0 then
    { rule := "concentration_hhi", passed := true, current_value := "0",
      threshold := pyNumStr max_hhi, severity := severity,
      detail := "Portfolio is empty" }
  else
    let hhiRaw := balances.tokens.foldl
      (fun hhi token =>
        let share := token.usd_value / total * 100
        hhi + share * share)
      0
    let hhi := pyRound hhiRaw
    let label := if hhi < 1500 then "diversified"
      else if hhi < 2500 then "moderate" else "concentrated"
    { rule := "concentration_hhi", passed := decide ((hhi : ℚ) ≤ max_hhi),
      current_value := toString hhi ++ " (" ++ label ++ ")",
      threshold := pyNumStr max_hhi, severity := severity,
      detail := "HHI score: " ++ toString hhi ++ " (" ++ label ++ ")"
        ++ (if (hhi : ℚ) ≤ max_hhi then "" else " — exceeds " ++ pyNumStr max_hhi ++ " threshold") }

/-! ### Report assembly -/

/-- `_enrich_result`: attach static metadata to a result. -/
def _enrich_result (result : RuleResult) : RuleResult :=
  match RULE_METADATA result.rule with
  | some meta => { result with name := meta.1, description := meta.2.1, rationale := meta.2.2 }
  | none => { result with name := result.rule, description := "", rationale := "" }

/-- `_generate_recommendation`: a deterministic recommendation for a failed rule. -/
def _generate_recommendation (result : RuleResult) : Recommendation :=
  { rule := result.rule,
    action := (RULE_RECOMMENDATIONS result.rule).getD
      "Review this rule's configuration and current portfolio state.",
    severity := result.severity }

/-- One iteration of the rule-dispatch `if/elif` chain in `validate_policy`:
the results the rule contributes (unknown rule types contribute none). -/
def runRule (balances : Balances) (transactions : Option (List Tx)) (now : ℚ)
    (rule : Rule) : Except PyError (List RuleResult) :=
  let params := rule.params
  let severity := rule.severity.getD "warning"
  if rule.type = "allocation_cap" then .ok (_check_allocation_cap balances params severity)
  else if rule.type = "stablecoin_floor" then .ok [_check_stablecoin_floor balances params severity]
  else if rule.type = "single_asset_cap" then .ok [_check_single_asset_cap balances params severity]
  else if rule.type = "max_tx_size" then .ok [_check_max_tx_size transactions balances params severity]
  else if rule.type = "inactivity_alert" then
    match _check_inactivity_alert transactions params severity now with
    | .error e => .error e
    | .ok r => .ok [r]
  else if rule.type = "min_diversification" then .ok [_check_min_diversification balances params severity]
  else if rule.type = "volatile_exposure" then .ok [_check_volatile_exposure balances params severity]
  else if rule.type = "min_treasury_value" then .ok [_check_min_treasury_value balances params severity]
  else if rule.type = "large_tx_ratio" then .ok [_check_large_tx_ratio transactions balances params severity]
  else if rule.type = "concentration_hhi" then .ok [_check_concentration_hhi balances params severity]
  else .ok []

/-- The rule loop of `validate_policy`: rules in caller order, results
concatenated; the first raised exception propagates. -/
def evalRules (balances : Balances) (transactions : Option (List Tx)) (now : ℚ) :
    List Rule → Except PyError (List RuleResult)
  | [] => .ok []
  | rule :: rules =>
    match runRule balances transactions now rule with
    | .error e => .error e
    | .ok res =>
      match evalRules balances transactions now rules with
      | .error e => .error e
      | .ok rest => .ok (res ++ rest)

/-- The post-loop report assembly of `validate_policy`: enrichment,
recommendations for failed results, counts and overall status. -/
def buildReport (balances : Balances) (results0 : List RuleResult) : Report :=
  let results := results0.map _enrich_result
  let recommendations := (results.filter (fun r => ¬ r.passed)).map _generate_recommendation
  let passed_count := (results.filter (fun r => r.passed)).length
  let total_count := results.length
  { safe_address := balances.address,
    total_usd := balances.total_usd,
    overall_status := if passed_count = total_count then "COMPLIANT" else "NON-COMPLIANT",
    passed := passed_count,
    failed := total_count - passed_count,
    total_rules := total_count,
    results := results,
    recommendations := recommendations }

/-- `validate_policy`: evaluate a balances snapshot and optional transaction
list against policy rules, producing a compliance report.  `now` is the
wall-clock instant `datetime.now(timezone.utc)` that the code reads inside
`_check_inactivity_alert`, as seconds since the Unix epoch. -/
def validate_policy (balances : Balances) (rules : List Rule)
    (transactions : Option (List Tx)) (now : ℚ) : Except PyError Report :=
  match evalRules balances transactions now rules with
  | .error e => .error e
  | .ok results => .ok (buildReport balances results)

/-! ### Chain reader snapshot construction

The pure cores of the three readers: the transformation from a parsed
provider response into a balances snapshot.  HTTP, JSON decoding and the
price fetches are outside the embedding; their results are the inputs.
-/

/-- The `token` sub-dict of a Safe Transaction Service balance item. -/
structure SafeTokenMeta where
  symbol : Option String
  decimals : Option Int
deriving DecidableEq, Repr

/-- One item of the Safe Transaction Service balances response, with the
`balance` string already parsed by `int(...)`. -/
structure SafeBalanceItem where
  tokenAddress : Option String
  token : Option SafeTokenMeta
  balance : Int
deriving DecidableEq, Repr

/-- The per-item token construction of `fetch_safe_balances`: symbol and
decimals from the token metadata (native ETH defaults), USD value from the
ETH price for the native asset, `$1.00/unit` for allowlisted stablecoins and
`$0` otherwise. -/
def safeTokenOf (eth_price : ℚ) (item : SafeBalanceItem) : Token :=
  let symbol := match item.token with
    | some ti => ti.symbol.getD "UNKNOWN"
    | none => "ETH"
  let decimals : Int := match item.token with
    | some ti => ti.decimals.getD 18
    | none => 18
  let balance : ℚ := (item.balance : Int) / pow10 decimals
  let is_stablecoin := match item.tokenAddress with
    | some a => STABLECOINS.contains (lowerStr a)
    | none => false
  let usd_value : ℚ := match item.tokenAddress with
    | none => balance * eth_price
    | some _ => if is_stablecoin then balance else 0
  { symbol := symbol, balance := balance, usd_value := usd_value,
    is_stablecoin := is_stablecoin, address := item.tokenAddress, decimals := decimals }

/-- The accumulation loop of `fetch_safe_balances` over the response items,
carrying the `(tokens, total_usd)` state. -/
def safeAccumulate (eth_price : ℚ) (st : List Token × ℚ) :
    List SafeBalanceItem → List Token × ℚ
  | [] => st
  | item :: rest =>
    let tok := safeTokenOf eth_price item
    safeAccumulate eth_price (st.1 ++ [tok], st.2 + tok.usd_value) rest

/-- `safe_reader.fetch_safe_balances` after a successful balances request:
the accumulation loop over the response items. -/
def fetch_safe_balances (safe_address : String) (raw_balances : List SafeBalanceItem)
    (eth_price : ℚ) : Balances :=
  let st := safeAccumulate eth_price ([], 0) raw_balances
  { address := safe_address, total_usd := st.2, eth_price := eth_price, tokens := st.1 }

/-- One entry of the Etherscan `tokentx` response that the token-discovery
loop of `fetch_eoa_balances` reads (decimals already parsed by `_safe_int`). -/
structure TokenTxItem where
  contractAddress : String
  tokenSymbol : Option String
  tokenDecimal : Option Int
deriving DecidableEq, Repr

/-- The token-discovery loop of `fetch_eoa_balances`: deduplicate contracts
(lowercased, skipping empty) in response order, capped at `MAX_TOKENS = 20`. -/
def collectContracts (acc : List (String × String × Int)) :
    List TokenTxItem → List (String × String × Int)
  | [] => acc
  | item :: rest =>
    let contract := lowerStr item.contractAddress
    let acc' :=
      if contract ≠ "" ∧ ¬ acc.any (fun p => p.1 = contract) then
        acc ++ [(contract, item.tokenSymbol.getD "???", item.tokenDecimal.getD 18)]
      else acc
    if 20 ≤ acc'.length then acc' else collectContracts acc' rest

/-- Native token symbols per chain (`NATIVE_TOKENS`), default `"ETH"`. -/
def nativeSymbolOf (chain : String) : String :=
  if chain = "ethereum" then "ETH"
  else if chain = "bsc" then "BNB"
  else if chain = "base" then "ETH"
  else if chain = "arbitrum" then "ETH"
  else if chain = "polygon" then "POL"
  else "ETH"

/-- The per-contract balance loop of `fetch_eoa_balances`: an HTTP error
(`none`) or a zero raw balance skips the token; allowlisted stablecoins are
priced `$1.00/unit`, everything else `$0`. -/
def eoaAccumulate (tokenBalanceOf : String → Option Int) (st : List Token × ℚ) :
    List (String × String × Int) → List Token × ℚ
  | [] => st
  | entry :: rest =>
    match tokenBalanceOf entry.1 with
    | none => eoaAccumulate tokenBalanceOf st rest
    | some raw_balance =>
      if raw_balance = 0 then eoaAccumulate tokenBalanceOf st rest
      else
        let balance : ℚ := (raw_balance : Int) / pow10 entry.2.2
        let is_stablecoin := STABLECOINS.contains entry.1
        let usd_value := if is_stablecoin then balance else 0
        eoaAccumulate tokenBalanceOf
          (st.1 ++ [{ symbol := entry.2.1, balance := balance, usd_value := usd_value,
                      is_stablecoin := is_stablecoin, address := some entry.1,
                      decimals := entry.2.2 }],
           st.2 + usd_value)
          rest

/-- `eth_reader.fetch_eoa_balances` after a successful native-balance request:
`eth_balance_wei` is the parsed native balance (a uint256-like amount),
`tokentxResult` the `tokentx` result list when it was a list, and
`tokenBalanceOf` the per-contract `tokenbalance` responses (`none` models an
HTTP error on that call, which skips the token). -/
def fetch_eoa_balances (address : String) (chain : String) (eth_balance_wei : Nat)
    (eth_price : ℚ) (tokentxResult : Option (List TokenTxItem))
    (tokenBalanceOf : String → Option Int) : Balances :=
  let eth_balance : ℚ := (eth_balance_wei : ℚ) / pow10 18
  let native_usd := eth_balance * eth_price
  let tokens0 : List Token :=
    if 0 < eth_balance then
      [{ symbol := nativeSymbolOf chain, balance := eth_balance, usd_value := native_usd,
         is_stablecoin := false, address := none, decimals := 18 }]
    else []
  let seen := match tokentxResult with
    | some items => collectContracts [] items
    | none => []
  let st := eoaAccumulate tokenBalanceOf (tokens0, native_usd) seen
  { address := address, total_usd := st.2, eth_price := eth_price, tokens := st.1 }

/-- The Solana stablecoin mint allowlist (`SOLANA_STABLECOINS`). -/
def SOLANA_STABLECOINS : List (String × String) :=
  [ ("EPjFWdd5AufqSSqeM2qN1xzybapC8G4wEGGkZwyTDt1v", "USDC")
  , ("Es9vMFrzaCERmJfrF4H2FYD4KCoNkY11McCe8BenwNYB", "USDT") ]

/-- One parsed SPL token account of the `getTokenAccountsByOwner` response. -/
structure SplAccount where
  mint : String
  decimals : Int
  uiAmount : Option ℚ
deriving DecidableEq, Repr

/-- State of the SPL token accumulation loop in `fetch_solana_balances`. -/
structure SolState where
  tokens : List Token
  total : ℚ
  nonStableMints : List String
deriving Repr

/-- The SPL-token accumulation loop of `fetch_solana_balances`: skip zero and
missing balances; stablecoin mints are priced `$1.00/unit`, other mints get
`$0` and are queued for batch repricing. -/
def solAccumulate (st : SolState) : List SplAccount → SolState
  | [] => st
  | account :: rest =>
    match account.uiAmount with
    | none => solAccumulate st rest
    | some ui =>
      if ui = 0 then solAccumulate st rest
      else
        let is_stablecoin := (SOLANA_STABLECOINS.find? (fun p => p.1 = account.mint)).isSome
        let symbol := match SOLANA_STABLECOINS.find? (fun p => p.1 = account.mint) with
          | some p => p.2
          | none => String.mk (account.mint.data.take 6) ++ "..."
        let usd_value : ℚ := if is_stablecoin then ui else 0
        let tok : Token :=
          { symbol := symbol, balance := ui, usd_value := usd_value,
            is_stablecoin := is_stablecoin, address := some account.mint,
            decimals := account.decimals }
        solAccumulate
          { tokens := st.tokens ++ [tok], total := st.total + usd_value,
            nonStableMints := if is_stablecoin then st.nonStableMints
              else st.nonStableMints ++ [account.mint] }
          rest

/-- The post-hoc batch repricing loop of `fetch_solana_balances`: each
non-stablecoin token whose (truthy) mint is in the batch quote gets its USD
value set from the quote, and the total is bumped by that value. -/
def solReprice (splPrices : List (String × ℚ)) (st : List Token × ℚ) :
    List Token → List Token × ℚ
  | [] => st
  | tok :: rest =>
    match tok.address with
    | none => solReprice splPrices (st.1 ++ [tok], st.2) rest
    | some mint =>
      if mint ≠ "" ∧ tok.is_stablecoin = false then
        match (splPrices.find? (fun p => p.1 = mint)) with
        | some p =>
          let tok' := { tok with usd_value := tok.balance * p.2 }
          solReprice splPrices (st.1 ++ [tok'], st.2 + tok'.usd_value) rest
        | none => solReprice splPrices (st.1 ++ [tok], st.2) rest
      else solReprice splPrices (st.1 ++ [tok], st.2) rest

/-- `solana_reader.fetch_solana_balances` after a successful `getBalance`
call: native SOL plus parsed SPL token accounts, with batch repricing of
non-stablecoin mints from the quote response `splPrices`. -/
def fetch_solana_balances (address : String) (sol_lamports : Nat) (sol_price : ℚ)
    (tokenAccounts : Option (List SplAccount)) (splPrices : List (String × ℚ)) : Balances :=
  let sol_balance : ℚ := (sol_lamports : ℚ) / pow10 9
  let sol_usd := sol_balance * sol_price
  let solToken : Token :=
    { symbol := "SOL", balance := sol_balance, usd_value := sol_usd,
      is_stablecoin := false, address := none, decimals := 9 }
  let st0 : SolState := { tokens := [solToken], total := sol_usd, nonStableMints := [] }
  let st := match tokenAccounts with
    | some accounts => solAccumulate st0 accounts
    | none => st0
  let final :=
    if st.nonStableMints.isEmpty then (st.tokens, st.total)
    else solReprice splPrices ([], st.total) st.tokens
  { address := address, total_usd := final.2, eth_price := sol_price, tokens := final.1 }

/-! ### Derived notions and concrete instances used by the theorems -/

/-- Sum of the `usd_value` fields of a token list. -/
def sumUsd (l : List Token) : ℚ := (l.map (fun t => t.usd_value)).sum

/-- Tokens violating no pricing yet: every non-stablecoin holding with a
contract address is priced `$0` (the state in which the Solana batch
repricing finds its candidates). -/
def nonStableZero (l : List Token) : Prop :=
  ∀ t ∈ l, t.is_stablecoin = false → t.address.isSome = true → t.usd_value = 0

/-- Concrete witness snapshot: an empty portfolio. -/
def wBalances : Balances :=
  { address := "0xabc", total_usd := 0, eth_price := 0, tokens := [] }

/-- Concrete witness rule list: one `min_treasury_value` rule that fails on
the empty portfolio. -/
def wRules : List Rule :=
  [{ type := "min_treasury_value", params := [("min_usd", 5)], severity := none }]

/-- The report `validate_policy` produces on the witness inputs. -/
def wReport : Report :=
  buildReport wBalances [_check_min_treasury_value wBalances [("min_usd", 5)] "warning"]

/-- An `inactivity_alert` rule with the default 168-hour window. -/
def inactivityRule : Rule :=
  { type := "inactivity_alert", params := [("threshold_hours", 168)], severity := some "warning" }

/-- A transaction record exactly as `fetch_eoa_transactions` builds it from
an Etherscan `txlist` entry: `execution_date` holds the provider's
`timeStamp` field, a Unix-seconds decimal string. -/
def etherscanTx : Tx :=
  { execution_date := some "1713559921", value_wei := 1000000000000000000,
    value_eth := 1, txTo := some "0xe0e0", method := none, token_address := none,
    token_value_raw := none, is_executed := true, tx_hash := "0xaaaa" }

/-- A transaction record shaped like `fetch_safe_transactions` output, with an
ISO-8601 execution date (2024-01-01T00:00:00+00:00, epoch 1704067200). -/
def isoTx : Tx :=
  { execution_date := some "2024-01-01T00:00:00+00:00", value_wei := 0,
    value_eth := 0, txTo := some "0xe0e0", method := some "transfer",
    token_address := none, token_value_raw := none, is_executed := true,
    tx_hash := "0xbbbb" }

/-- A helper for concrete tokens whose balance equals their USD value. -/
def mkTok (sym : String) (usd : ℚ) (stable : Bool) : Token :=
  { symbol := sym, balance := usd, usd_value := usd, is_stablecoin := stable,
    address := none, decimals := 18 }

/-- The C5 scenario snapshot: four tokens of $250,000 each in a $1,000,000
portfolio (each exactly 25%). -/
def hhiBalances : Balances :=
  { address := "0xdef", total_usd := 1000000, eth_price := 2500,
    tokens := [mkTok "ETH" 250000 false, mkTok "USDC" 250000 true,
               mkTok "USDT" 250000 true, mkTok "WBTC" 250000 false] }

/-- An empty portfolio snapshot with the given address and native price. -/
def emptyPortfolio (addr : String) (ep : ℚ) : Balances :=
  { address := addr, total_usd := 0, eth_price := ep, tokens := [] }

/-- A policy containing each of the ten known rule types once, with shared
parameter mapping `p` and severity `s`. -/
def tenRules (p : List (String × ℚ)) (s : String) : List Rule :=
  [ { type := "allocation_cap", params := p, severity := some s }
  , { type := "stablecoin_floor", params := p, severity := some s }
  , { type := "single_asset_cap", params := p, severity := some s }
  , { type := "max_tx_size", params := p, severity := some s }
  , { type := "inactivity_alert", params := p, severity := some s }
  , { type := "min_diversification", params := p, severity := some s }
  , { type := "volatile_exposure", params := p, severity := some s }
  , { type := "min_treasury_value", params := p, severity := some s }
  , { type := "large_tx_ratio", params := p, severity := some s }
  , { type := "concentration_hhi", params := p, severity := some s } ]

/-- A transaction with no execution date at all (undatable activity). -/
def undatedTx : Tx :=
  { execution_date := none, value_wei := 0, value_eth := 0, txTo := none,
    method := none, token_address := none, token_value_raw := none,
    is_executed := true, tx_hash := "0xcccc" }

deriving instance DecidableEq for Except

/-! ### Helper lemmas -/

/-- Inversion of `validate_policy`: a successful report is `buildReport`
applied to the results assembled by the rule loop. -/
lemma validate_policy_ok {balances : Balances} {rules : List Rule}
    {transactions : Option (List Tx)} {now : ℚ} {rep : Report}
    (h : validate_policy balances rules transactions now = .ok rep) :
    ∃ rs, evalRules balances transactions now rules = .ok rs ∧ rep = buildReport balances rs := by
  unfold validate_policy at h
  cases h' : evalRules balances transactions now rules with
  | error e => rw [h'] at h; exact absurd h (by simp)
  | ok rs =>
    rw [h'] at h
    exact ⟨rs, rfl, (Except.ok.injEq _ _ ▸ h).symm⟩

/-- The `passed` count of a report never exceeds its `total_rules`. -/
lemma buildReport_passed_le (b : Balances) (rs : List RuleResult) :
    (buildReport b rs).passed ≤ (buildReport b rs).total_rules :=
  List.length_filter_le _ _

/-- Field computation of `buildReport`: the counts and status. -/
lemma buildReport_fields (b : Balances) (rs : List RuleResult) :
    (buildReport b rs).passed = ((rs.map _enrich_result).filter (fun r => r.passed)).length ∧
    (buildReport b rs).total_rules = (rs.map _enrich_result).length ∧
    (buildReport b rs).failed
      = (rs.map _enrich_result).length
        - ((rs.map _enrich_result).filter (fun r => r.passed)).length ∧
    (buildReport b rs).results = rs.map _enrich_result ∧
    (buildReport b rs).overall_status
      = (if ((rs.map _enrich_result).filter (fun r => r.passed)).length
            = (rs.map _enrich_result).length then "COMPLIANT" else "NON-COMPLIANT") ∧
    (buildReport b rs).recommendations
      = ((rs.map _enrich_result).filter (fun r => ¬ r.passed)).map _generate_recommendation := by
  refine ⟨rfl, rfl, rfl, rfl, rfl, rfl⟩

/-! ### Claims -/

/-- C4: for every report produced by `validate_policy`, `passed + failed`
equals `total_rules`, and `total_rules` equals the length of the results
list. -/
theorem C4_counts_exact (balances : Balances) (rules : List Rule)
    (transactions : Option (List Tx)) (now : ℚ) (rep : Report)
    (h : validate_policy balances rules transactions now = .ok rep) :
    rep.passed + rep.failed = rep.total_rules ∧ rep.total_rules = rep.results.length := by
  obtain ⟨rs, _, rfl⟩ := validate_policy_ok h
  obtain ⟨hp, ht, hf, hres, -, -⟩ := buildReport_fields balances rs
  constructor
  · rw [hp, ht, hf]
    exact Nat.add_sub_cancel' (List.length_filter_le _ _)
  · rw [ht, hres]

/-- C3: for every report produced by `validate_policy`, the overall status is
`"COMPLIANT"` iff `passed` equals `total_rules`, equivalently iff every
result in the results list passed. -/
theorem C3_compliant_iff (balances : Balances) (rules : List Rule)
    (transactions : Option (List Tx)) (now : ℚ) (rep : Report)
    (h : validate_policy balances rules transactions now = .ok rep) :
    (rep.overall_status = "COMPLIANT" ↔ rep.passed = rep.total_rules) ∧
    (rep.overall_status = "COMPLIANT" ↔ ∀ r ∈ rep.results, r.passed = true) := by
  obtain ⟨rs, _, rfl⟩ := validate_policy_ok h
  obtain ⟨hp, ht, -, hres, hs, -⟩ := buildReport_fields balances rs
  have hiff1 : (buildReport balances rs).overall_status = "COMPLIANT"
      ↔ (buildReport balances rs).passed = (buildReport balances rs).total_rules := by
    rw [hp, ht, hs]
    by_cases hc : ((rs.map _enrich_result).filter (fun r => r.passed)).length
        = (rs.map _enrich_result).length
    · simp [hc]
    · simp only [if_neg hc]
      constructor
      · intro hbad; exact absurd hbad (by decide)
      · intro hbad; exact absurd hbad hc
  refine ⟨hiff1, hiff1.trans ?_⟩
  rw [hp, ht, hres]
  rw [← List.countP_eq_length_filter]
  exact List.countP_eq_length

/-- C8: for every report produced by `validate_policy`, the recommendations
are exactly one `{rule, action, severity}` entry per failed result, with the
severity copied from that result, and no entry exists for a rule all of
whose results passed. -/
theorem C8_recommendations (balances : Balances) (rules : List Rule)
    (transactions : Option (List Tx)) (now : ℚ) (rep : Report)
    (h : validate_policy balances rules transactions now = .ok rep) :
    rep.recommendations
      = (rep.results.filter (fun r => ¬ r.passed)).map _generate_recommendation ∧
    (∀ rec ∈ rep.recommendations, ∃ res ∈ rep.results, res.passed = false ∧
      rec.rule = res.rule ∧ rec.severity = res.severity) ∧
    (∀ rec ∈ rep.recommendations, ¬ ∀ res ∈ rep.results, res.rule = rec.rule → res.passed = true) := by
  obtain ⟨rs, _, rfl⟩ := validate_policy_ok h
  obtain ⟨-, -, -, hres, -, hrec⟩ := buildReport_fields balances rs
  have hmain : (buildReport balances rs).recommendations
      = ((buildReport balances rs).results.filter (fun r => ¬ r.passed)).map
        _generate_recommendation := by rw [hrec, hres]
  have hmem : ∀ rec ∈ (buildReport balances rs).recommendations,
      ∃ res ∈ (buildReport balances rs).results, res.passed = false ∧
        rec.rule = res.rule ∧ rec.severity = res.severity := by
    intro rec hrecmem
    rw [hmain] at hrecmem
    obtain ⟨res, hresmem, hEq⟩ := List.mem_map.mp hrecmem
    obtain ⟨hresmem', hfail⟩ := List.mem_filter.mp hresmem
    refine ⟨res, hresmem', ?_, ?_, ?_⟩
    · simpa using hfail
    · rw [← hEq]; rfl
    · rw [← hEq]; rfl
  refine ⟨hmain, hmem, ?_⟩
  intro rec hrecmem hall
  obtain ⟨res, hresmem, hfail, hrule, -⟩ := hmem rec hrecmem
  have := hall res hresmem hrule.symm
  rw [this] at hfail
  exact absurd hfail (by decide)

/-- Witness for C4 at a concrete input. -/
theorem C4_counts_exact_witness :
    validate_policy wBalances wRules none 0 = .ok wReport ∧
    (wReport.passed + wReport.failed = wReport.total_rules ∧
      wReport.total_rules = wReport.results.length) :=
  ⟨rfl, C4_counts_exact wBalances wRules none 0 wReport rfl⟩

/-- Witness for C3 at a concrete input. -/
theorem C3_compliant_iff_witness :
    validate_policy wBalances wRules none 0 = .ok wReport ∧
    ((wReport.overall_status = "COMPLIANT" ↔ wReport.passed = wReport.total_rules) ∧
      (wReport.overall_status = "COMPLIANT" ↔ ∀ r ∈ wReport.results, r.passed = true)) :=
  ⟨rfl, C3_compliant_iff wBalances wRules none 0 wReport rfl⟩

/-- Witness for C8 at a concrete input. -/
theorem C8_recommendations_witness :
    validate_policy wBalances wRules none 0 = .ok wReport ∧
    (wReport.recommendations
        = (wReport.results.filter (fun r => ¬ r.passed)).map _generate_recommendation ∧
      (∀ rec ∈ wReport.recommendations, ∃ res ∈ wReport.results, res.passed = false ∧
        rec.rule = res.rule ∧ rec.severity = res.severity) ∧
      (∀ rec ∈ wReport.recommendations,
        ¬ ∀ res ∈ wReport.results, res.rule = rec.rule → res.passed = true)) :=
  ⟨rfl, (C8_recommendations wBalances wRules none 0 wReport rfl).1,
    (C8_recommendations wBalances wRules none 0 wReport rfl).2.1,
    (C8_recommendations wBalances wRules none 0 wReport rfl).2.2⟩

/-- C6: for every snapshot and rule parameters, `max_tx_size`,
`inactivity_alert` and `large_tx_ratio` each return a single passing result
with a skipped/N-A detail when transactions is `None`; with a non-null empty
transaction list, `inactivity_alert` fails while `max_tx_size` and
`large_tx_ratio` still pass. -/
theorem C6_null_vs_empty_transactions (b : Balances) (p : List (String × ℚ))
    (s : String) (now : ℚ) :
    _check_max_tx_size none b p s
      = { rule := "max_tx_size", passed := true, current_value := "N/A",
          threshold := usdFmt (lookupD p "max_usd" 100000), severity := s,
          detail := "No transaction data available — skipped" } ∧
    _check_inactivity_alert none p s now
      = .ok { rule := "inactivity_alert", passed := true, current_value := "N/A",
              threshold := pyNumStr (lookupD p "threshold_hours" 168) ++ "h", severity := s,
              detail := "No transaction data available — skipped" } ∧
    _check_large_tx_ratio none b p s
      = { rule := "large_tx_ratio", passed := true, current_value := "N/A",
          threshold := pyNumStr (lookupD p "max_percent" 15) ++ "%", severity := s,
          detail := "No transaction data available — skipped" } ∧
    _check_inactivity_alert (some []) p s now
      = .ok { rule := "inactivity_alert", passed := false,
              current_value := "no transactions found",
              threshold := pyNumStr (lookupD p "threshold_hours" 168) ++ "h", severity := s,
              detail := "No executed transactions found — Safe may be inactive or new" } ∧
    (_check_max_tx_size (some []) b p s).passed = true ∧
    (_check_large_tx_ratio (some []) b p s).passed = true := by
  refine ⟨rfl, rfl, rfl, rfl, rfl, ?_⟩
  by_cases h : b.total_usd = 0 <;> simp [_check_large_tx_ratio, h]

/-- C5: on the 4-tokens-at-25% $1,000,000 portfolio, `concentration_hhi`
computes HHI = 2500 and passes against `max_hhi = 3000`, but labels the
result "concentrated", not "moderate" — the code's strict `hhi < 2500`
boundary puts 2500 in the "concentrated" bucket, contradicting the
function's own docstring ("1500-2500 = moderate, >2500 = concentrated"). -/
theorem C5_hhi_boundary_eval :
    _check_concentration_hhi hhiBalances [("max_hhi", 3000)] "warning"
      = { rule := "concentration_hhi", passed := true,
          current_value := "2500 (concentrated)", threshold := "3000",
          severity := "warning", detail := "HHI score: 2500 (concentrated)" } := by
  decide

/-- C2: `validate_policy` raises `ValueError` on a transaction record shaped
exactly as `fetch_eoa_transactions` builds it — `execution_date` carrying
Etherscan's Unix-seconds `timeStamp` string — because
`datetime.fromisoformat` rejects it inside `_check_inactivity_alert`. -/
theorem C2_raises_on_etherscan_timestamp :
    validate_policy wBalances [inactivityRule] (some [etherscanTx]) 0
      = .error (.valueError "Invalid isoformat string: '1713559921'") := by
  decide

/-- C1 counterexample: with a fixed `(snapshot, transactions, rules)` triple,
two evaluations of `validate_policy` at different wall-clock instants (one
hour and 1000 hours after the last transaction) produce different reports —
evaluation is not a function of the three arguments alone. -/
theorem C1_counterexample_clock_dependence :
    validate_policy wBalances [inactivityRule] (some [isoTx]) (1704067200 + 3600)
      ≠ validate_policy wBalances [inactivityRule] (some [isoTx]) (1704067200 + 1000 * 3600) := by
  decide

/-- C1 (amended): evaluation is deterministic once the wall-clock instant
read inside `_check_inactivity_alert` is also fixed; the report is
independent of that instant whenever `transactions` is null or the policy
contains no `inactivity_alert` rule. -/
theorem C1_deterministic_given_clock (b : Balances) (rules : List Rule)
    (txs : Option (List Tx)) (now₁ now₂ : ℚ)
    (h : txs = none ∨ ∀ r ∈ rules, r.type ≠ "inactivity_alert") :
    validate_policy b rules txs now₁ = validate_policy b rules txs now₂ := by
  suffices hev : evalRules b txs now₁ rules = evalRules b txs now₂ rules by
    unfold validate_policy
    rw [hev]
  induction rules with
  | nil => rfl
  | cons r rs ih =>
    have hr : runRule b txs now₁ r = runRule b txs now₂ r := by
      rcases h with hnone | hty
      · subst hnone
        have hc : ∀ p s, _check_inactivity_alert none p s now₁
            = _check_inactivity_alert none p s now₂ := fun p s => rfl
        simp only [runRule, hc]
      · have hne := hty r (List.mem_cons_self r rs)
        simp only [runRule, ne_eq, hne, if_false]
    have h' : txs = none ∨ ∀ r' ∈ rs, r'.type ≠ "inactivity_alert" := by
      rcases h with hnone | hty
      · exact Or.inl hnone
      · exact Or.inr fun r' hr' => hty r' (List.mem_cons_of_mem r hr')
    simp only [evalRules]
    rw [hr, ih h']

/-- Witness for the amended C1 at a concrete input. -/
theorem C1_deterministic_given_clock_witness :
    validate_policy wBalances [inactivityRule] none 3
      = validate_policy wBalances [inactivityRule] none 7 :=
  C1_deterministic_given_clock wBalances [inactivityRule] none 3 7 (Or.inl rfl)

/-- The latest-date fold leaves its accumulator unchanged when no transaction
carries an execution date. -/
lemma foldLatest_of_all_none {txs : List Tx}
    (h : ∀ t ∈ txs, t.execution_date = none) (acc : Option PyDateTime) :
    foldLatest acc txs = .ok acc := by
  induction txs with
  | nil => rfl
  | cons t ts ih =>
    have ht := h t (List.mem_cons_self t ts)
    simp only [foldLatest, ht]
    exact ih (fun t' ht' => h t' (List.mem_cons_of_mem t ht'))

/-- C10: on a non-empty transaction list in which no record carries an
execution date, `inactivity_alert` fails with `current_value = "unknown"`
and detail "Could not determine last transaction date". -/
theorem C10_undatable_fails (txs : List Tx) (p : List (String × ℚ)) (s : String)
    (now : ℚ) (hne : txs ≠ []) (hdates : ∀ t ∈ txs, t.execution_date = none) :
    _check_inactivity_alert (some txs) p s now
      = .ok { rule := "inactivity_alert", passed := false, current_value := "unknown",
              threshold := pyNumStr (lookupD p "threshold_hours" 168) ++ "h", severity := s,
              detail := "Could not determine last transaction date" } := by
  have hempty : txs.isEmpty = false := by
    cases txs with
    | nil => exact absurd rfl hne
    | cons t ts => rfl
  simp only [_check_inactivity_alert, hempty, Bool.false_eq_true, if_false,
    foldLatest_of_all_none hdates]

/-- Witness for C10 at a concrete input. -/
theorem C10_undatable_fails_witness :
    _check_inactivity_alert (some [undatedTx]) [] "warning" 0
      = .ok { rule := "inactivity_alert", passed := false, current_value := "unknown",
              threshold := pyNumStr (lookupD [] "threshold_hours" 168) ++ "h",
              severity := "warning",
              detail := "Could not determine last transaction date" } :=
  C10_undatable_fails [undatedTx] [] "warning" 0 (by decide) (by decide)

/-- C7: on an empty portfolio (`total_usd = 0`, `tokens = []`) with all ten
rule types present, `validate_policy` returns a report without raising (with
transactions null or empty, the shapes the degenerate-input scenario
exercises), and `allocation_cap`, `stablecoin_floor`, `volatile_exposure`
and `concentration_hhi` each produce a passing result, the latter reporting
HHI = 0. -/
theorem C7_empty_portfolio (addr : String) (ep : ℚ) (p : List (String × ℚ)) (s : String)
    (now : ℚ) (txs : Option (List Tx)) (h : txs = none ∨ txs = some []) :
    (validate_policy (emptyPortfolio addr ep) (tenRules p s) txs now).isOk = true ∧
    _check_allocation_cap (emptyPortfolio addr ep) p s
      = [{ rule := "allocation_cap", passed := true, current_value := "0%",
           threshold := pyNumStr (lookupD p "max_percent" 30) ++ "%", severity := s,
           detail := "Portfolio is empty" }] ∧
    _check_stablecoin_floor (emptyPortfolio addr ep) p s
      = { rule := "stablecoin_floor", passed := true, current_value := "0%",
          threshold := pyNumStr (lookupD p "min_percent" 20) ++ "%", severity := s,
          detail := "Portfolio is empty" } ∧
    _check_volatile_exposure (emptyPortfolio addr ep) p s
      = { rule := "volatile_exposure", passed := true, current_value := "0%",
          threshold := pyNumStr (lookupD p "max_percent" 80) ++ "%", severity := s,
          detail := "Portfolio is empty" } ∧
    _check_concentration_hhi (emptyPortfolio addr ep) p s
      = { rule := "concentration_hhi", passed := true, current_value := "0",
          threshold := pyNumStr (lookupD p "max_hhi" 3000), severity := s,
          detail := "Portfolio is empty" } := by
  refine ⟨?_, rfl, rfl, rfl, rfl⟩
  rcases h with h | h <;> subst h <;> rfl

/-- Witness for C7 at a concrete input. -/
theorem C7_empty_portfolio_witness :
    (validate_policy (emptyPortfolio "0xc0c0" 2500) (tenRules [] "warning") none 0).isOk = true ∧
    _check_allocation_cap (emptyPortfolio "0xc0c0" 2500) [] "warning"
      = [{ rule := "allocation_cap", passed := true, current_value := "0%",
           threshold := pyNumStr (lookupD [] "max_percent" 30) ++ "%", severity := "warning",
           detail := "Portfolio is empty" }] ∧
    _check_stablecoin_floor (emptyPortfolio "0xc0c0" 2500) [] "warning"
      = { rule := "stablecoin_floor", passed := true, current_value := "0%",
          threshold := pyNumStr (lookupD [] "min_percent" 20) ++ "%", severity := "warning",
          detail := "Portfolio is empty" } ∧
    _check_volatile_exposure (emptyPortfolio "0xc0c0" 2500) [] "warning"
      = { rule := "volatile_exposure", passed := true, current_value := "0%",
          threshold := pyNumStr (lookupD [] "max_percent" 80) ++ "%", severity := "warning",
          detail := "Portfolio is empty" } ∧
    _check_concentration_hhi (emptyPortfolio "0xc0c0" 2500) [] "warning"
      = { rule := "concentration_hhi", passed := true, current_value := "0",
          threshold := pyNumStr (lookupD [] "max_hhi" 3000), severity := "warning",
          detail := "Portfolio is empty" } :=
  C7_empty_portfolio "0xc0c0" 2500 [] "warning" 0 none (Or.inl rfl)

/-- Summing no tokens gives zero. -/
lemma sumUsd_nil : sumUsd [] = 0 := rfl

/-- Unfolding `sumUsd` over a cons. -/
lemma sumUsd_cons (t : Token) (l : List Token) :
    sumUsd (t :: l) = t.usd_value + sumUsd l := by
  simp [sumUsd]

/-- Appending one token adds its USD value to the sum. -/
lemma sumUsd_append_one (l : List Token) (t : Token) :
    sumUsd (l ++ [t]) = sumUsd l + t.usd_value := by
  simp [sumUsd]

/-- The Safe accumulation loop preserves the total-equals-sum invariant. -/
lemma safeAccumulate_inv (ep : ℚ) (items : List SafeBalanceItem) :
    ∀ st : List Token × ℚ, st.2 = sumUsd st.1 →
      (safeAccumulate ep st items).2 = sumUsd (safeAccumulate ep st items).1 := by
  induction items with
  | nil => intro st h; exact h
  | cons item rest ih =>
    intro st h
    simp only [safeAccumulate]
    exact ih _ (by rw [h, sumUsd_append_one])

/-- The EOA token-balance loop preserves the total-equals-sum invariant. -/
lemma eoaAccumulate_inv (balOf : String → Option Int)
    (entries : List (String × String × Int)) :
    ∀ st : List Token × ℚ, st.2 = sumUsd st.1 →
      (eoaAccumulate balOf st entries).2 = sumUsd (eoaAccumulate balOf st entries).1 := by
  induction entries with
  | nil => intro st h; exact h
  | cons entry rest ih =>
    intro st h
    simp only [eoaAccumulate]
    cases hb : balOf entry.1 with
    | none => exact ih st h
    | some raw =>
      by_cases hz : raw = 0
      · simp only [hz, if_pos rfl]
        exact ih st h
      · simp only [if_neg hz]
        exact ih _ (by rw [h, sumUsd_append_one])

/-- The SPL accumulation loop preserves the total-equals-sum invariant. -/
lemma solAccumulate_inv (accounts : List SplAccount) :
    ∀ st : SolState, st.total = sumUsd st.tokens →
      (solAccumulate st accounts).total = sumUsd (solAccumulate st accounts).tokens := by
  induction accounts with
  | nil => intro st h; exact h
  | cons account rest ih =>
    intro st h
    simp only [solAccumulate]
    cases hui : account.uiAmount with
    | none => exact ih st h
    | some ui =>
      by_cases hz : ui = 0
      · simp only [if_pos hz]
        exact ih st h
      · simp only [if_neg hz]
        exact ih _ (by simp only []; rw [h, sumUsd_append_one])

/-- The SPL accumulation loop prices every addressed non-stablecoin at zero. -/
lemma solAccumulate_nsz (accounts : List SplAccount) :
    ∀ st : SolState, nonStableZero st.tokens →
      nonStableZero (solAccumulate st accounts).tokens := by
  induction accounts with
  | nil => intro st h; exact h
  | cons account rest ih =>
    intro st h
    simp only [solAccumulate]
    cases hui : account.uiAmount with
    | none => exact ih st h
    | some ui =>
      by_cases hz : ui = 0
      · simp only [if_pos hz]
        exact ih st h
      · simp only [if_neg hz]
        apply ih
        intro t ht hstable haddr
        rcases List.mem_append.mp ht with hold | hnew
        · exact h t hold hstable haddr
        · have heq := List.mem_singleton.mp hnew
          subst heq
          dsimp only at hstable ⊢
          rw [hstable]
          simp


/-- The batch repricing loop restores the total-equals-sum invariant, because
each repriced token previously contributed zero. -/
lemma solReprice_inv (prices : List (String × ℚ)) (pending : List Token) :
    ∀ (done : List Token) (acc : ℚ), acc = sumUsd done + sumUsd pending →
      nonStableZero pending →
      (solReprice prices (done, acc) pending).2
        = sumUsd (solReprice prices (done, acc) pending).1 := by
  induction pending with
  | nil =>
    intro done acc h _
    simpa [sumUsd_nil] using h
  | cons tok rest ih =>
    intro done acc h hnsz
    have hrest : nonStableZero rest := fun t ht => hnsz t (List.mem_cons_of_mem tok ht)
    simp only [solReprice]
    cases ha : tok.address with
    | none =>
      dsimp only
      apply ih
      · rw [h, sumUsd_cons, sumUsd_append_one]; ring
      · exact hrest
    | some mint =>
      dsimp only
      by_cases hcond : mint ≠ "" ∧ tok.is_stablecoin = false
      · rw [if_pos hcond]
        cases hf : prices.find? (fun p => p.1 = mint) with
        | none =>
          apply ih
          · rw [h, sumUsd_cons, sumUsd_append_one]; ring
          · exact hrest
        | some pr =>
          have husd : tok.usd_value = 0 :=
            hnsz tok (List.mem_cons_self tok rest) hcond.2 (by rw [ha]; rfl)
          apply ih
          · rw [h, sumUsd_cons, sumUsd_append_one, husd]; dsimp only; ring
          · exact hrest
      · rw [if_neg hcond]
        apply ih
        · rw [h, sumUsd_cons, sumUsd_append_one]; ring
        · exact hrest

/-- C9: every snapshot constructed by any of the three chain readers from
any provider response satisfies `total_usd = sum of the tokens' usd_value`
(exactly, in the rational embedding), including after the Solana reader's
post-hoc batch repricing of non-stablecoin mints. -/
theorem C9_snapshot_total_invariant :
    (∀ (addr : String) (raw : List SafeBalanceItem) (ep : ℚ),
      (fetch_safe_balances addr raw ep).total_usd
        = sumUsd (fetch_safe_balances addr raw ep).tokens) ∧
    (∀ (addr chain : String) (wei : Nat) (ep : ℚ) (ttx : Option (List TokenTxItem))
        (balOf : String → Option Int),
      (fetch_eoa_balances addr chain wei ep ttx balOf).total_usd
        = sumUsd (fetch_eoa_balances addr chain wei ep ttx balOf).tokens) ∧
    (∀ (addr : String) (lam : Nat) (sp : ℚ) (accounts : Option (List SplAccount))
        (prices : List (String × ℚ)),
      (fetch_solana_balances addr lam sp accounts prices).total_usd
        = sumUsd (fetch_solana_balances addr lam sp accounts prices).tokens) := by
  refine ⟨?_, ?_, ?_⟩
  · intro addr raw ep
    exact safeAccumulate_inv ep raw ([], 0) rfl
  · intro addr chain wei ep ttx balOf
    have h0 : (0 : ℚ) < pow10 18 := by decide
    unfold fetch_eoa_balances
    dsimp only
    apply eoaAccumulate_inv
    by_cases hb : 0 < (wei : ℚ) / pow10 18
    · rw [if_pos hb]
      dsimp only
      rw [sumUsd_cons, sumUsd_nil]
      ring
    · rw [if_neg hb]
      have hge : (0 : ℚ) ≤ (wei : ℚ) / pow10 18 :=
        div_nonneg (Nat.cast_nonneg wei) (le_of_lt h0)
      have hz : (wei : ℚ) / pow10 18 = 0 := le_antisymm (not_lt.mp hb) hge
      dsimp only
      rw [hz, sumUsd_nil, zero_mul]
  · intro addr lam sp accounts prices
    unfold fetch_solana_balances
    dsimp only
    set st0 : SolState :=
      { tokens := [{ symbol := "SOL", balance := (lam : ℚ) / pow10 9,
                     usd_value := (lam : ℚ) / pow10 9 * sp, is_stablecoin := false,
                     address := none, decimals := 9 }],
        total := (lam : ℚ) / pow10 9 * sp, nonStableMints := [] } with hst0
    have h0inv : st0.total = sumUsd st0.tokens := by
      rw [hst0]; dsimp only; rw [sumUsd_cons, sumUsd_nil]; ring
    have h0nsz : nonStableZero st0.tokens := by
      rw [hst0]
      intro t ht hstable haddr
      have heq := List.mem_singleton.mp ht
      subst heq
      simp at haddr
    cases accounts with
    | none =>
      by_cases he : st0.nonStableMints.isEmpty
      · rw [if_pos he]; exact h0inv
      · rw [if_neg he]
        exact solReprice_inv prices st0.tokens [] st0.total (by rw [h0inv, sumUsd_nil]; ring) h0nsz
    | some accs =>
      have hinv := solAccumulate_inv accs st0 h0inv
      have hnsz := solAccumulate_nsz accs st0 h0nsz
      by_cases he : (solAccumulate st0 accs).nonStableMints.isEmpty
      · rw [if_pos he]; exact hinv
      · rw [if_neg he]
        exact solReprice_inv prices (solAccumulate st0 accs).tokens []
          (solAccumulate st0 accs).total (by rw [hinv, sumUsd_nil]; ring) hnsz

end Aegis
